import Mathlib

/-!
Verification of the sigmaTrading scripts (contract-ID scraper, market-data
snapshot scraper, news-trader order bracket) against their natural-language
specification.  The Python sources are shallowly embedded: callback-mutated
state is passed explicitly, busy-wait polling loops become fuel-indexed
recursions over a stream `obs : Nat → state` of the states the loop would
observe at successive polls, and Python floats are modelled by `PFloat`
(a rational or NaN) so that the IEEE rule `nan == x` = `False` is kept.
-/

/-- Model of a Python float as used by these scripts: either NaN or an exact
numeric value (modelled as a rational).  Only NaN-ness and comparisons are
relevant to the verified claims. -/
inductive PFloat where
  | nan : PFloat
  | val : ℚ → PFloat
deriving DecidableEq

/-- `math.isnan` / `np.isnan` on the float model. -/
def PFloat.isnan : PFloat → Bool
  | PFloat.nan => true
  | PFloat.val _ => false

/-- Python `==` on floats: any comparison involving NaN is `False`
(IEEE 754 semantics, which Python follows). -/
def pyFloatEq : PFloat → PFloat → Bool
  | PFloat.nan, _ => false
  | _, PFloat.nan => false
  | PFloat.val a, PFloat.val b => a == b

/-- Python `<=` on floats: any comparison involving NaN is `False`. -/
def pyFloatLe : PFloat → PFloat → Bool
  | PFloat.nan, _ => false
  | _, PFloat.nan => false
  | PFloat.val a, PFloat.val b => decide (a ≤ b)

/-- A dynamically typed Python value as it appears in order-ID fields of
`news.py`: the code stores both ints (the ibapi default `0`) and strings
(`str(o)` written by `prepare_orders`). -/
inductive PyVal where
  | intV : Int → PyVal
  | strV : String → PyVal
deriving DecidableEq

/-- Python `==` across the two runtime types: an int never equals a str. -/
def pyEq : PyVal → PyVal → Bool
  | PyVal.intV a, PyVal.intV b => a == b
  | PyVal.strV a, PyVal.strV b => a == b
  | _, _ => false

/-- Python `str(...)` applied to a `PyVal`. -/
def pyStr : PyVal → String
  | PyVal.intV a => toString a
  | PyVal.strV s => s

/-! ## Contract-ID scraper (`src/conid_scraper.py`) -/

/-- One request record of the conid scraper, as built by `IdScraper.req_data`
(`conid_scraper.py` lines 58-68): descriptor fields plus the mutable sentinel
`conid`, initially `0`; `contr_month` is added later by the
`contractDetails` callback. -/
structure ConidRec where
  id : Int
  symbol : String
  sectype : String
  tclass : String
  exchange : String
  currency : String
  expiry : String
  side : String
  strike : String
  conid : Int
  contr_month : Option String := none
deriving DecidableEq

namespace IdScraper

/-- `IdScraper.contractDetails` (`conid_scraper.py` lines 76-87): for every
record whose `id` equals the request id, fill in `conid` and the contract
month from the received contract details. -/
def contractDetails (req_id : Int) (conId : Int) (lastTradeMonth : String)
    (data : List ConidRec) : List ConidRec :=
  data.map (fun m =>
    if m.id == req_id then
      { m with conid := conId, contr_month := some lastTradeMonth }
    else m)

/-- The body of one poll of `IdScraper.wait_for_finish` (`conid_scraper.py`
lines 89-102): `have_all` starts the poll `True` and is cleared by any record
whose `conid` is `0`. -/
def have_all (data : List ConidRec) : Bool :=
  data.foldl (fun b m => if m.conid == 0 then false else b) true

/-- The polling loop of `IdScraper.wait_for_finish`, fuel-indexed.
`obs n` is `self.data` as the loop would see it at poll `n` (the callback
thread mutates it between polls); the loop exits at the first poll whose
`have_all` is `True` and the result is that poll's index.  `none` means the
fuel ran out with the loop still polling; the Python loop has no other exit. -/
def wait_go (obs : Nat → List ConidRec) : Nat → Nat → Option Nat
  | 0, _ => none
  | fuel + 1, n => if have_all (obs n) then some n else wait_go obs fuel (n + 1)

/-- `IdScraper.wait_for_finish` (`conid_scraper.py` lines 89-102), starting
from poll `0`. -/
def wait_for_finish (obs : Nat → List ConidRec) (fuel : Nat) : Option Nat :=
  wait_go obs fuel 0

end IdScraper

/-! ## Snapshot scraper wait loop (`src/tws/snapshot.py`) -/

/-- One option-chain request record of the snapshot scraper, as built by
`Snapshot.create_instruments` (`snapshot.py` lines 123-132): the mutable
market-data fields start as NaN and are filled by the `tickPrice` /
`tickOptionComputation` callbacks. -/
structure ChainRec where
  id : Int
  fin_instr : String
  strike : ℚ
  side : String
  expiry : String
  und_price : PFloat
  bid : PFloat
  ask : PFloat
  delta : PFloat
  gamma : PFloat
deriving DecidableEq

namespace Snapshot

/-- `Snapshot.tickPrice` (`snapshot.py` lines 144-159): for the record whose
`id` equals the request id, tick type `1` writes the bid and tick type `2`
writes the ask. -/
def tickPrice (req_id : Int) (tick_type : Int) (price : PFloat)
    (chain : List ChainRec) : List ChainRec :=
  chain.map (fun i =>
    if i.id == req_id then
      if tick_type == 1 then { i with bid := price }
      else if tick_type == 2 then { i with ask := price }
      else i
    else i)

/-- The per-record guard of the wait loop of `Snapshot.wait_to_finish`
(`snapshot.py` line 251): the record counts as missing when
`(np.isnan(Ask) and np.isnan(Bid)) or Delta == float("nan")`.
The second disjunct uses Python float `==` against NaN. -/
def record_missing (i : ChainRec) : Bool :=
  (i.ask.isnan && i.bid.isnan) || pyFloatEq i.delta PFloat.nan

/-- The missing-record counter `c1` computed by one poll of
`Snapshot.wait_to_finish` (`snapshot.py` lines 247-253); the poll's `found`
flag equals `missing_count chain == 0`, since `found` is cleared exactly when
`c1` is incremented. -/
def missing_count (chain : List ChainRec) : Nat :=
  chain.foldl (fun c1 i => if record_missing i then c1 + 1 else c1) 0

/-- The polling loop of `Snapshot.wait_to_finish` (`snapshot.py` lines
237-260), fuel-indexed.  `obs n` is `self.chain` as observed at poll `n`;
`c_prev` carries the previous poll's missing count (initially `0`, mirroring
`c1 = 0` before the loop).  After a poll the loop first breaks when
`c_prev == c1`, then the `while not found` test exits when `found`
(i.e. `c1 == 0`); the result is the exit poll's index. -/
def wait_go (obs : Nat → List ChainRec) : Nat → Nat → Nat → Option Nat
  | 0, _, _ => none
  | fuel + 1, c_prev, n =>
    let c1 := missing_count (obs n)
    if c_prev = c1 then some n
    else if c1 = 0 then some n
    else wait_go obs fuel c1 (n + 1)

/-- `Snapshot.wait_to_finish` (`snapshot.py` lines 237-260), starting at
poll `0` with `c1 = 0`. -/
def wait_to_finish (obs : Nat → List ChainRec) (fuel : Nat) : Option Nat :=
  wait_go obs fuel 0 0

/-- The termination predicate of the claims: poll `n` exits when the missing
count is zero, or when `n` is not the first poll and the missing count equals
the previous poll's. -/
def exit_poll (obs : Nat → List ChainRec) (n : Nat) : Prop :=
  missing_count (obs n) = 0 ∨
    (0 < n ∧ missing_count (obs n) = missing_count (obs (n - 1)))

instance (obs : Nat → List ChainRec) (n : Nat) : Decidable (exit_poll obs n) := by
  unfold exit_poll; infer_instance

/-- The `c_prev` value the loop holds when it reaches poll `n`. -/
def prev_count (obs : Nat → List ChainRec) (n : Nat) : Nat :=
  if n = 0 then 0 else missing_count (obs (n - 1))

end Snapshot

/-! ## Snapshot scraper account state and data-frame enrichment
(`src/tws/snapshot.py` lines 207-287) -/

/-- The value stored per contract id in `Snapshot.account`
(`snapshot.py` lines 224-226).  Position, average cost and strike carry no
NaN significance in the verified claims, so they are modelled as rationals. -/
structure AcctEntry where
  position : ℚ
  avg_price : ℚ
  strike : ℚ
deriving DecidableEq

/-- Python `dict` assignment `d[k] = v` on an association list: replace the
value when the key is present, otherwise append the new binding. -/
def dict_set (d : List (Int × AcctEntry)) (k : Int) (v : AcctEntry) :
    List (Int × AcctEntry) :=
  if d.any (fun kv => kv.1 == k) then
    d.map (fun kv => if kv.1 == k then (k, v) else kv)
  else d ++ [(k, v)]

/-- Python `dict` lookup `d[k]` (as an `Option`). -/
def dict_get (d : List (Int × AcctEntry)) (k : Int) : Option AcctEntry :=
  (d.find? (fun kv => kv.1 == k)).map (fun kv => kv.2)

/-- The part of the `Snapshot` object state that `updatePortfolio` reads and
writes: the configured contract symbol `self.cont.symbol` and the
`self.account` dictionary. -/
structure SnapAccountState where
  cont_symbol : String
  account : List (Int × AcctEntry)
deriving DecidableEq

namespace Snapshot

/-- `Snapshot.updatePortfolio` (`snapshot.py` lines 207-226): when the
callback contract's symbol equals the configured symbol, store the contract's
position, average cost and strike under its `conId`; otherwise do nothing.
The callback's market price/value and PnL parameters are unused by the body
and omitted. -/
def updatePortfolio (s : SnapAccountState) (contract_symbol : String)
    (contract_conId : Int) (position : ℚ) (average_cost : ℚ)
    (contract_strike : ℚ) : SnapAccountState :=
  if contract_symbol == s.cont_symbol then
    let v : AcctEntry :=
      { position := position, avg_price := average_cost, strike := contract_strike }
    { s with account := dict_set s.account contract_conId v }
  else s

end Snapshot

/-- The columns of a data-frame row that the position-update loop of
`Snapshot.prepare_df` touches: the `conid` column (filled by the Dynamo
lookup) and the `Position` / `Avg Price` columns. -/
structure DfRow where
  conid : Int
  position : ℚ
  avg_price : ℚ
deriving DecidableEq

namespace Snapshot

/-- The effect of one iteration of the account loop of `Snapshot.prepare_df`
(`snapshot.py` lines 282-284) on one row: rows whose `conid` equals the
account key get the stored position and the stored average cost divided by
the configured multiplier. -/
def df_row_update (mult : ℚ) (kv : Int × AcctEntry) (r : DfRow) : DfRow :=
  if r.conid == kv.1 then
    { r with position := kv.2.position, avg_price := kv.2.avg_price / mult }
  else r

/-- The position-enrichment part of `Snapshot.prepare_df` (`snapshot.py`
lines 274-284): first `df["Position"] = 0` and `df["Avg Price"] = 0`, then
for each `(k, v)` of `self.account` overwrite the rows with matching
`conid`. -/
def update_position_data (account : List (Int × AcctEntry)) (mult : ℚ)
    (rows : List DfRow) : List DfRow :=
  account.foldl
    (fun df kv => df.map (df_row_update mult kv))
    (rows.map (fun r => { r with position := 0, avg_price := 0 }))

end Snapshot

/-! ## Snapshot scraper export and command line
(`src/tws/snapshot.py` lines 289-337) -/

/-- The two logging outcomes of `Snapshot.export_dynamo`. -/
inductive ExportReport where
  | success : ExportReport
  | failure : ExportReport
deriving DecidableEq

namespace Snapshot

/-- The outcome logic of `Snapshot.export_dynamo` (`snapshot.py` lines
309-315): one `put_item` call is made, then
`is_ok = response["ResponseMetadata"]["HTTPStatusCode"] == 200` selects a
verbose success log or an error log.  The function is total in the response
status code: there is no retry and no raised exception. -/
def export_dynamo_report (http_status_code : Nat) : ExportReport :=
  let is_ok := http_status_code == 200
  if is_ok then ExportReport.success else ExportReport.failure

end Snapshot

/-- The command-line arguments accepted by the snapshot tool's `__main__`
(`snapshot.py` lines 320-326): `-v` (long form `--verbose`), `-q` (long form
`--quiet`), `--db` and `--csv PATH`. -/
structure SnapArgs where
  verbose : Bool
  quiet : Bool
  db : Bool
  csv : Option String
deriving DecidableEq

set_option linter.unusedVariables false in
/-- The externally visible effects of the snapshot tool's `__main__`
(`snapshot.py` lines 326-337) as a function of the parsed arguments: after
`args = parser.parse_args()` the variable `args` is never read again, so the
CSV is unconditionally written to `"./data/out.csv"` (line 335) and
`export_dynamo` is unconditionally called (line 336). -/
def snapshot_main (args : SnapArgs) : String × Bool :=
  ("./data/out.csv", true)

/-! ## News trader (`src/news.py`) -/

/-- `TraderStatus` (`news.py` lines 14-23). -/
inductive TraderStatus where
  | COLD : TraderStatus
  | HOT : TraderStatus
  | ACTIVE : TraderStatus
deriving DecidableEq

/-- The fields of an ibapi `Order` that `news.py` reads or writes.  A fresh
`Order()` has integer id fields `0`, empty strings and `transmit = True`;
the id fields are `PyVal` because `prepare_orders` overwrites them with
strings (`str(o)`). -/
structure NewsOrder where
  action : String := ""
  orderType : String := ""
  totalQuantity : Int := 0
  transmit : Bool := true
  ocaGroup : String := ""
  orderId : PyVal := PyVal.intV 0
  parentId : PyVal := PyVal.intV 0
  lmtPrice : PFloat := PFloat.val 0
  auxPrice : PFloat := PFloat.val 0
  trailStopPrice : PFloat := PFloat.val 0
  lmtPriceOffset : PFloat := PFloat.val 0
deriving DecidableEq

/-- The `TwsWrapper` state of `news.py` (fields assigned in `__init__`,
lines 42-115). -/
structure TwsWrapper where
  nextValidOrderId : Int
  last_price : PFloat
  set_price : PFloat
  entry_spread : PFloat
  tgt_spread : PFloat
  trail_spread : PFloat
  delta_adjust : PFloat
  time_adjust : Int
  q : Int
  status : TraderStatus
  long_entry : NewsOrder
  long_tgt : NewsOrder
  long_trail : NewsOrder
  short_entry : NewsOrder
  short_tgt : NewsOrder
  short_trail : NewsOrder
deriving DecidableEq

namespace TwsWrapper

/-- `TwsWrapper.__init__` (`news.py` lines 42-115): default prices and
spreads, status `COLD`, and the six bracket orders with their actions, order
types, quantities and OCA groups. -/
def init : TwsWrapper :=
  let q : Int := 1
  { nextValidOrderId := -1
    last_price := PFloat.val (-1)
    set_price := PFloat.val (-1)
    entry_spread := PFloat.val 0.05
    tgt_spread := PFloat.val 0.2
    trail_spread := PFloat.val 0.2
    delta_adjust := PFloat.val 0.02
    time_adjust := 500
    q := q
    status := TraderStatus.COLD
    long_entry := { action := "BUY", orderType := "STP LMT",
                    totalQuantity := q, transmit := false }
    long_tgt := { action := "SELL", orderType := "LMT",
                  totalQuantity := q, transmit := false, ocaGroup := "News_Long" }
    long_trail := { action := "SELL", orderType := "TRAIL",
                    totalQuantity := q, transmit := false, ocaGroup := "News_Long" }
    short_entry := { action := "SELL", orderType := "STP LMT",
                     totalQuantity := q, transmit := false }
    short_tgt := { action := "BUY", orderType := "LMT",
                   totalQuantity := q, transmit := false, ocaGroup := "News_Short" }
    short_trail := { action := "BUY", orderType := "TRAIL",
                     totalQuantity := q, transmit := false, ocaGroup := "News_Short" } }

/-- `TwsWrapper.get_orders` (`news.py` lines 127-133). -/
def get_orders (s : TwsWrapper) : List NewsOrder :=
  [s.long_entry, s.long_tgt, s.long_trail,
   s.short_entry, s.short_tgt, s.short_trail]

/-- `TwsWrapper.prepare_orders` (`news.py` lines 135-159): return unchanged
when `self.last_price <= 0` (a Python float comparison); otherwise set the
six order ids to `str(o)` … `str(o + 5)` with `o = self.nextValidOrderId`,
set the entry OCA groups, and set each target's and trail's `parentId` to
`str(...)` of its own side's entry order id. -/
def prepare_orders (s : TwsWrapper) : TwsWrapper :=
  if pyFloatLe s.last_price (PFloat.val 0) then s
  else
    let o := s.nextValidOrderId
    let long_entry := { s.long_entry with
      orderId := PyVal.strV (toString o), ocaGroup := "News trader" }
    let long_tgt := { s.long_tgt with
      orderId := PyVal.strV (toString (o + 1)),
      parentId := PyVal.strV (pyStr long_entry.orderId) }
    let long_trail := { s.long_trail with
      orderId := PyVal.strV (toString (o + 2)),
      parentId := PyVal.strV (pyStr long_entry.orderId) }
    let short_entry := { s.short_entry with
      orderId := PyVal.strV (toString (o + 3)), ocaGroup := "News Trader" }
    let short_tgt := { s.short_tgt with
      orderId := PyVal.strV (toString (o + 4)),
      parentId := PyVal.strV (pyStr short_entry.orderId) }
    let short_trail := { s.short_trail with
      orderId := PyVal.strV (toString (o + 5)),
      parentId := PyVal.strV (pyStr short_entry.orderId) }
    { s with long_entry := long_entry, long_tgt := long_tgt,
             long_trail := long_trail, short_entry := short_entry,
             short_tgt := short_tgt, short_trail := short_trail }

/-- `TwsWrapper.orderStatus` (`news.py` lines 221-252): three successive
`if` statements compare the callback's `order_id` (Python `==`) against the
stored order ids; an entry-id match sets `ACTIVE`, a long-exit or short-exit
match sets `COLD`.  The other callback parameters are only logged and are
omitted. -/
def orderStatus (s : TwsWrapper) (order_id : PyVal) : TwsWrapper :=
  let s1 := if pyEq order_id s.long_entry.orderId ||
               pyEq order_id s.short_entry.orderId then
      { s with status := TraderStatus.ACTIVE } else s
  let s2 := if pyEq order_id s1.long_trail.orderId ||
               pyEq order_id s1.long_tgt.orderId then
      { s1 with status := TraderStatus.COLD } else s1
  let s3 := if pyEq order_id s2.short_trail.orderId ||
               pyEq order_id s2.short_tgt.orderId then
      { s2 with status := TraderStatus.COLD } else s2
  s3

end TwsWrapper

namespace Trader

/-- `Trader.place_orders` (`news.py` lines 355-364): transmit the six orders
(an external side effect on the brokerage session) and set the trader status
to `HOT`. -/
def place_orders (s : TwsWrapper) : TwsWrapper :=
  { s with status := TraderStatus.HOT }

end Trader

/-! ## Concrete inputs used by witnesses and counterexamples -/

/-- A conid request record that is never filled (`conid = 0`). -/
def unfilled_rec : ConidRec :=
  { id := 1, symbol := "CL", sectype := "FOP", tclass := "LO",
    exchange := "NYMEX", currency := "USD", expiry := "201902",
    side := "C", strike := "50", conid := 0 }

/-- A run of the conid scraper in which the single request record is never
filled by a callback: every poll observes `conid = 0`. -/
def conid_stuck_obs : Nat → List ConidRec := fun _ => [unfilled_rec]

/-- The conid scraper's wait loop never returns on the run `obs`, however
much fuel the fuel-indexed model is given: the Python loop polls forever. -/
def conid_wait_diverges_on (obs : Nat → List ConidRec) : Prop :=
  ∀ fuel, IdScraper.wait_for_finish obs fuel = none

/-- A run of the conid scraper whose record is filled between polls `0`
and `1` (by `contractDetails` with conid `42`). -/
def conid_filled_obs : Nat → List ConidRec := fun n =>
  if n = 0 then [unfilled_rec]
  else IdScraper.contractDetails 1 42 "20190215" [unfilled_rec]

/-- A chain record with both bid and ask still NaN. -/
def chain_empty_rec : ChainRec :=
  { id := 2, fin_instr := "CL FOP (LO) Feb'19 50 CALL @NYMEX",
    strike := 50, side := "C", expiry := "201902",
    und_price := PFloat.nan, bid := PFloat.nan, ask := PFloat.nan,
    delta := PFloat.nan, gamma := PFloat.nan }

/-- A run of the snapshot scraper in which one record stays missing forever:
every poll observes the same single unfilled record, so the second poll sees
the same missing count as the first. -/
def chain_stuck_obs : Nat → List ChainRec := fun _ => [chain_empty_rec]

/-- A run of the snapshot scraper with two records in which one bid arrives
(via `tickPrice`, tick type `1`) before poll `1` and nothing else changes
afterwards. -/
def chain_partial_obs : Nat → List ChainRec := fun n =>
  if n = 0 then [chain_empty_rec, { chain_empty_rec with id := 3 }]
  else Snapshot.tickPrice 3 1 (PFloat.val 11.61)
    [chain_empty_rec, { chain_empty_rec with id := 3 }]

/-- A news-trader wrapper state that has received a valid order id (`5`) and
a last price tick (`50`), the precondition for `prepare_orders` to act. -/
def news_ready_state : TwsWrapper :=
  { TwsWrapper.init with nextValidOrderId := 5, last_price := PFloat.val 50 }

/-- The wrapper state after `prepare_orders` on `news_ready_state`: the six
order ids are the strings of `5`–`10`. -/
def news_prepared_state : TwsWrapper :=
  TwsWrapper.prepare_orders news_ready_state

/-- A portfolio entry as stored by `updatePortfolio`: position `2`, average
cost `300`, strike `55`. -/
def acct_entry_demo : AcctEntry := { position := 2, avg_price := 300, strike := 55 }

/-- A one-contract account dictionary (conId `10`). -/
def acct_demo : List (Int × AcctEntry) := [(10, acct_entry_demo)]

/-- Two data-frame rows, for conIds `10` and `11`, with stale position data
that `prepare_df` first zeroes. -/
def rows_demo : List DfRow :=
  [{ conid := 10, position := 5, avg_price := 7 },
   { conid := 11, position := 5, avg_price := 7 }]

/-- The enriched row the position-update loop produces for conId `10` with
multiplier `1000`. -/
def row_demo : DfRow :=
  { conid := 10, position := acct_entry_demo.position,
    avg_price := acct_entry_demo.avg_price / 1000 }

/-- A snapshot account state configured for symbol `"CL"` with an empty
account dictionary. -/
def snap_demo_state : SnapAccountState := { cont_symbol := "CL", account := [] }

/-- `have_all` holds exactly when every record's sentinel `conid` is nonzero. -/
theorem IdScraper.have_all_iff (data : List ConidRec) :
    IdScraper.have_all data = true ↔ ∀ m ∈ data, m.conid ≠ 0 := by
  have key : ∀ (l : List ConidRec) (b : Bool),
      l.foldl (fun b m => if m.conid == 0 then false else b) b =
        (b && l.all (fun m => !(m.conid == 0))) := by
    intro l
    induction l with
    | nil => intro b; simp
    | cons m t ih =>
      intro b
      simp only [List.foldl_cons, List.all_cons, ih]
      cases h : (m.conid == 0) <;> simp [h, Bool.and_assoc]
  unfold IdScraper.have_all
  rw [key]
  simp [List.all_eq_true]

/-- If the fueled loop returns poll `n` (starting from poll `s`), then
`have_all` held at `n` and failed at every poll in `[s, n)`. -/
theorem IdScraper.wait_go_sound (obs : Nat → List ConidRec) :
    ∀ (fuel s n : Nat), IdScraper.wait_go obs fuel s = some n →
      IdScraper.have_all (obs n) = true ∧
        ∀ k, s ≤ k → k < n → IdScraper.have_all (obs k) = false := by
  intro fuel
  induction fuel with
  | zero => intro s n h; simp [IdScraper.wait_go] at h
  | succ f ih =>
    intro s n h
    unfold IdScraper.wait_go at h
    by_cases hall : IdScraper.have_all (obs s) = true
    · simp [hall] at h
      subst h
      exact ⟨hall, fun k hk1 hk2 => absurd (lt_of_le_of_lt hk1 hk2) (lt_irrefl _)⟩
    · simp [hall] at h
      rcases ih (s + 1) n h with ⟨h1, h2⟩
      refine ⟨h1, fun k hk1 hk2 => ?_⟩
      rcases Nat.eq_or_lt_of_le hk1 with rfl | hlt
      · exact Bool.eq_false_iff.mpr hall
      · exact h2 k hlt hk2

/-- At any poll, the loop's exit test (`c_prev = c1` or `c1 = 0`) with the
carried `c_prev` is equivalent to the claim-level predicate `exit_poll`. -/
theorem Snapshot.exit_test_iff (obs : Nat → List ChainRec) (n : Nat) :
    (Snapshot.prev_count obs n = Snapshot.missing_count (obs n) ∨
      Snapshot.missing_count (obs n) = 0) ↔ Snapshot.exit_poll obs n := by
  unfold Snapshot.prev_count Snapshot.exit_poll
  rcases Nat.eq_zero_or_pos n with rfl | hn
  · simp [eq_comm]
  · have hne : n ≠ 0 := Nat.pos_iff_ne_zero.mp hn
    simp only [hne, if_false]
    constructor
    · rintro (h | h)
      · exact Or.inr ⟨hn, h.symm⟩
      · exact Or.inl h
    · rintro (h | ⟨_, h⟩)
      · exact Or.inr h
      · exact Or.inl h.symm

/-- Characterisation of the fueled loop from any start poll `s` carrying the
invariant `c_prev = prev_count obs s`: it returns `some n` exactly when `n` is
the first exiting poll at or after `s` and the fuel reaches it. -/
theorem Snapshot.wait_go_iff (obs : Nat → List ChainRec) :
    ∀ (fuel s n : Nat),
      Snapshot.wait_go obs fuel (Snapshot.prev_count obs s) s = some n ↔
        (s ≤ n ∧ n < s + fuel ∧ Snapshot.exit_poll obs n ∧
          ∀ m, s ≤ m → m < n → ¬ Snapshot.exit_poll obs m) := by
  intro fuel
  induction fuel with
  | zero =>
    intro s n
    simp only [Snapshot.wait_go]
    constructor
    · intro h; cases h
    · rintro ⟨h1, h2, _⟩
      exact absurd (lt_of_le_of_lt h1 h2) (by simp)
  | succ f ih =>
    intro s n
    have hunf : Snapshot.wait_go obs (f + 1) (Snapshot.prev_count obs s) s =
        (if Snapshot.prev_count obs s = Snapshot.missing_count (obs s) then some s
         else if Snapshot.missing_count (obs s) = 0 then some s
         else Snapshot.wait_go obs f (Snapshot.missing_count (obs s)) (s + 1)) := rfl
    rw [hunf]
    by_cases hexit : Snapshot.exit_poll obs s
    · have hsome :
          (if Snapshot.prev_count obs s = Snapshot.missing_count (obs s) then some s
           else if Snapshot.missing_count (obs s) = 0 then some s
           else Snapshot.wait_go obs f (Snapshot.missing_count (obs s)) (s + 1)) = some s := by
        rcases (Snapshot.exit_test_iff obs s).mpr hexit with h | h
        · rw [if_pos h]
        · by_cases hpc : Snapshot.prev_count obs s = Snapshot.missing_count (obs s)
          · rw [if_pos hpc]
          · rw [if_neg hpc, if_pos h]
      rw [hsome]
      simp only [Option.some.injEq]
      constructor
      · rintro rfl
        exact ⟨le_refl _, by omega, hexit, fun m hm1 hm2 => by omega⟩
      · rintro ⟨h1, _, _, h4⟩
        rcases Nat.eq_or_lt_of_le h1 with rfl | hlt
        · rfl
        · exact absurd hexit (h4 s (le_refl _) hlt)
    · have htest : ¬ (Snapshot.prev_count obs s = Snapshot.missing_count (obs s) ∨
          Snapshot.missing_count (obs s) = 0) :=
        fun h => hexit ((Snapshot.exit_test_iff obs s).mp h)
      push_neg at htest
      rw [if_neg htest.1, if_neg htest.2]
      have hcarry : Snapshot.missing_count (obs s) = Snapshot.prev_count obs (s + 1) := by
        unfold Snapshot.prev_count
        simp
      rw [hcarry, ih (s + 1) n]
      constructor
      · rintro ⟨h1, h2, h3, h4⟩
        refine ⟨by omega, by omega, h3, fun m hm1 hm2 => ?_⟩
        rcases Nat.eq_or_lt_of_le hm1 with rfl | hlt
        · exact hexit
        · exact h4 m hlt hm2
      · rintro ⟨h1, h2, h3, h4⟩
        have hns : n ≠ s := by
          rintro rfl
          exact hexit h3
        exact ⟨by omega, by omega, h3, fun m hm1 hm2 => h4 m (by omega) hm2⟩

/-- Helper: Python float `==` against NaN is `False` for every float. -/
theorem pyFloatEq_nan_right (x : PFloat) : pyFloatEq x PFloat.nan = false := by
  cases x <;> rfl

/-- Helper: if every poll of a conid-scraper run still has an unfilled
record, the `wait_for_finish` loop never exits, whatever the fuel. -/
theorem IdScraper.wait_go_stuck (obs : Nat → List ConidRec)
    (h : ∀ n, IdScraper.have_all (obs n) = false) :
    ∀ fuel n, IdScraper.wait_go obs fuel n = none := by
  intro fuel
  induction fuel with
  | zero => intro n; rfl
  | succ f ih =>
    intro n
    unfold IdScraper.wait_go
    rw [h n]
    simpa using ih (n + 1)

/-- Helper: when the per-poll missing count never increases, the snapshot
wait loop exits within `missing_count (obs s) + 2` further polls, from any
start poll and any carried previous count. -/
theorem Snapshot.wait_go_stagnates (obs : Nat → List ChainRec)
    (hmono : ∀ k, Snapshot.missing_count (obs (k + 1)) ≤ Snapshot.missing_count (obs k)) :
    ∀ fuel c_prev s, Snapshot.missing_count (obs s) + 2 ≤ fuel →
      (Snapshot.wait_go obs fuel c_prev s).isSome = true := by
  intro fuel
  induction fuel with
  | zero => intro c_prev s hf; omega
  | succ f ih =>
    intro c_prev s hf
    have hunf : Snapshot.wait_go obs (f + 1) c_prev s =
        (if c_prev = Snapshot.missing_count (obs s) then some s
         else if Snapshot.missing_count (obs s) = 0 then some s
         else Snapshot.wait_go obs f (Snapshot.missing_count (obs s)) (s + 1)) := rfl
    rw [hunf]
    by_cases h1 : c_prev = Snapshot.missing_count (obs s)
    · rw [if_pos h1]; rfl
    · rw [if_neg h1]
      by_cases h2 : Snapshot.missing_count (obs s) = 0
      · rw [if_pos h2]; rfl
      · rw [if_neg h2]
        by_cases h3 : Snapshot.missing_count (obs (s + 1)) = Snapshot.missing_count (obs s)
        · obtain ⟨f0, rfl⟩ : ∃ f0, f = f0 + 1 := ⟨f - 1, by omega⟩
          have hstep : Snapshot.wait_go obs (f0 + 1) (Snapshot.missing_count (obs s)) (s + 1) =
              (if Snapshot.missing_count (obs s) = Snapshot.missing_count (obs (s + 1))
               then some (s + 1)
               else if Snapshot.missing_count (obs (s + 1)) = 0 then some (s + 1)
               else Snapshot.wait_go obs f0 (Snapshot.missing_count (obs (s + 1))) (s + 2)) := rfl
          rw [hstep, if_pos h3.symm]
          rfl
        · have hlt : Snapshot.missing_count (obs (s + 1)) < Snapshot.missing_count (obs s) :=
            lt_of_le_of_ne (hmono s) h3
          exact ih (Snapshot.missing_count (obs s)) (s + 1) (by omega)

/-- Claim C3: when `IdScraper.wait_for_finish` returns (at poll `n`), every
record then has `conid ≠ 0`, and at every earlier poll the loop kept going
because some record's sentinel `conid` was still `0`; so no export can
happen before all sentinel fields are filled. -/
theorem conid_sentinel_completion (obs : Nat → List ConidRec) (fuel n : Nat)
    (h : IdScraper.wait_for_finish obs fuel = some n) :
    (∀ m ∈ obs n, m.conid ≠ 0) ∧
      ∀ k < n, ∃ m ∈ obs k, m.conid = 0 := by
  rcases IdScraper.wait_go_sound obs fuel 0 n h with ⟨h1, h2⟩
  refine ⟨(IdScraper.have_all_iff _).mp h1, fun k hk => ?_⟩
  have hfalse := h2 k (Nat.zero_le _) hk
  by_contra hc
  push_neg at hc
  have : IdScraper.have_all (obs k) = true := (IdScraper.have_all_iff _).mpr hc
  rw [this] at hfalse
  cases hfalse

/-- Witness for C3 on a run whose single record is filled with conid `42`
between polls `0` and `1`. -/
theorem conid_sentinel_completion_witness :
    IdScraper.wait_for_finish conid_filled_obs 3 = some 1 ∧
      ((∀ m ∈ conid_filled_obs 1, m.conid ≠ 0) ∧
        ∀ k < 1, ∃ m ∈ conid_filled_obs k, m.conid = 0) :=
  ⟨by decide, conid_sentinel_completion conid_filled_obs 3 1 (by decide)⟩

/-- Claim C4: `Snapshot.wait_to_finish` returns at poll `n` exactly when `n`
is the first poll at which either no record is missing, or the missing count
equals the previous poll's missing count (two consecutive polls unchanged). -/
theorem snapshot_wait_characterisation (obs : Nat → List ChainRec)
    (fuel n : Nat) :
    Snapshot.wait_to_finish obs fuel = some n ↔
      (n < fuel ∧ Snapshot.exit_poll obs n ∧
        ∀ m < n, ¬ Snapshot.exit_poll obs m) := by
  have key := Snapshot.wait_go_iff obs fuel 0 n
  have h0 : Snapshot.prev_count obs 0 = 0 := rfl
  rw [h0] at key
  unfold Snapshot.wait_to_finish
  rw [key]
  constructor
  · rintro ⟨_, h2, h3, h4⟩
    exact ⟨by omega, h3, fun m hm => h4 m (Nat.zero_le _) hm⟩
  · rintro ⟨h1, h2, h3⟩
    exact ⟨Nat.zero_le _, by omega, h2, fun m _ hm => h3 m hm⟩

/-- Witness for C4: a two-record run where one bid arrives before poll `1`
and the data then stagnates, so the loop exits at poll `2` (the first poll
whose missing count, `1`, equals the previous poll's). -/
theorem snapshot_wait_characterisation_witness :
    Snapshot.wait_to_finish chain_partial_obs 5 = some 2 :=
  (snapshot_wait_characterisation chain_partial_obs 5 2).mpr (by decide)

/-- Claim C9: in the wait loop of the snapshot scraper a chain record counts
as missing exactly when both its ask and its bid are NaN; the
`Delta == float("nan")` disjunct compares with Python float equality, which
is `False` for every value, so the delta field never affects the count. -/
theorem snapshot_missing_guard (r : ChainRec) (d : PFloat) :
    (Snapshot.record_missing r = true ↔
      (r.ask.isnan = true ∧ r.bid.isnan = true)) ∧
    Snapshot.record_missing { r with delta := d } = Snapshot.record_missing r := by
  constructor
  · unfold Snapshot.record_missing
    rw [pyFloatEq_nan_right]
    simp
  · unfold Snapshot.record_missing
    rw [pyFloatEq_nan_right, pyFloatEq_nan_right]

/-- Claim C1 counterexample: on the run `conid_stuck_obs`, in which the
single request record's `conid` is never filled by a callback,
`IdScraper.wait_for_finish` never exits, whatever the fuel: the conid
scraper's wait loop has no stagnation heuristic, so the claim that every
wait loop still terminates on such runs is false. -/
theorem conid_wait_never_returns :
    conid_wait_diverges_on conid_stuck_obs := by
  intro fuel
  exact IdScraper.wait_go_stuck conid_stuck_obs (fun _ => rfl) fuel 0

/-- Claim C1 (amended): only the snapshot scraper's wait loop exits via the
stagnation heuristic on runs that never fully succeed — it returns whenever
the per-poll missing count never increases and the fuel covers the initial
missing count plus two polls — while `IdScraper.wait_for_finish` polls
forever on any run in which some record's `conid` stays `0` at every poll. -/
theorem stagnation_behaviour_of_wait_loops
    (obs : Nat → List ChainRec) (obs2 : Nat → List ConidRec) (fuel fuel2 : Nat)
    (hmono : ∀ k, Snapshot.missing_count (obs (k + 1)) ≤ Snapshot.missing_count (obs k))
    (hfuel : Snapshot.missing_count (obs 0) + 2 ≤ fuel)
    (hstuck : ∀ n, ∃ m ∈ obs2 n, m.conid = 0) :
    (Snapshot.wait_to_finish obs fuel).isSome = true ∧
      IdScraper.wait_for_finish obs2 fuel2 = none := by
  constructor
  · exact Snapshot.wait_go_stagnates obs hmono fuel 0 0 hfuel
  · have hfalse : ∀ n, IdScraper.have_all (obs2 n) = false := by
      intro n
      rcases hstuck n with ⟨m, hm, hz⟩
      by_contra hc
      have htrue : IdScraper.have_all (obs2 n) = true := by
        cases h : IdScraper.have_all (obs2 n)
        · exact absurd h hc
        · rfl
      exact absurd hz ((IdScraper.have_all_iff _).mp htrue m hm)
    exact IdScraper.wait_go_stuck obs2 hfalse fuel2 0

/-- Witness for the amended C1: the stagnating snapshot run
`chain_stuck_obs` (constant missing count `1`) exits within fuel `3`, and the
never-filled conid run `conid_stuck_obs` is still polling after `7` polls. -/
theorem stagnation_behaviour_of_wait_loops_witness :
    (Snapshot.wait_to_finish chain_stuck_obs 3).isSome = true ∧
      IdScraper.wait_for_finish conid_stuck_obs 7 = none :=
  stagnation_behaviour_of_wait_loops chain_stuck_obs conid_stuck_obs 3 7
    (fun _ => le_rfl) (by decide) (fun _ => ⟨unfilled_rec, List.mem_singleton.mpr rfl, rfl⟩)

/-- Claim C10: when `last_price <= 0` (Python float comparison),
`prepare_orders` returns immediately: the whole wrapper state — every field
of all six orders and `nextValidOrderId` included — is unchanged. -/
theorem prepare_orders_noop (s : TwsWrapper)
    (h : pyFloatLe s.last_price (PFloat.val 0) = true) :
    TwsWrapper.prepare_orders s = s := by
  unfold TwsWrapper.prepare_orders
  rw [h]
  rfl

/-- Witness for C10 at the freshly initialised wrapper, whose `last_price`
is `-1.0`. -/
theorem prepare_orders_noop_witness :
    pyFloatLe TwsWrapper.init.last_price (PFloat.val 0) = true ∧
      TwsWrapper.prepare_orders TwsWrapper.init = TwsWrapper.init :=
  ⟨by decide, prepare_orders_noop TwsWrapper.init (by decide)⟩

/-- Claim C6: `get_orders` always returns exactly the six bracket orders
(entry, target, trailing stop for each of long and short); after
`prepare_orders` runs with a known (positive) last price, the six order ids
are the string forms of the six consecutive integers starting at
`nextValidOrderId`, and each target and trailing-stop order's `parentId`
equals its own side's entry order id. -/
theorem order_bracket_structure (s : TwsWrapper)
    (h : pyFloatLe s.last_price (PFloat.val 0) = false) :
    TwsWrapper.get_orders s =
      [s.long_entry, s.long_tgt, s.long_trail,
       s.short_entry, s.short_tgt, s.short_trail] ∧
    (TwsWrapper.get_orders s).length = 6 ∧
    ((TwsWrapper.prepare_orders s).long_entry.orderId =
        PyVal.strV (toString s.nextValidOrderId) ∧
      (TwsWrapper.prepare_orders s).long_tgt.orderId =
        PyVal.strV (toString (s.nextValidOrderId + 1)) ∧
      (TwsWrapper.prepare_orders s).long_trail.orderId =
        PyVal.strV (toString (s.nextValidOrderId + 2)) ∧
      (TwsWrapper.prepare_orders s).short_entry.orderId =
        PyVal.strV (toString (s.nextValidOrderId + 3)) ∧
      (TwsWrapper.prepare_orders s).short_tgt.orderId =
        PyVal.strV (toString (s.nextValidOrderId + 4)) ∧
      (TwsWrapper.prepare_orders s).short_trail.orderId =
        PyVal.strV (toString (s.nextValidOrderId + 5))) ∧
    ((TwsWrapper.prepare_orders s).long_tgt.parentId =
        (TwsWrapper.prepare_orders s).long_entry.orderId ∧
      (TwsWrapper.prepare_orders s).long_trail.parentId =
        (TwsWrapper.prepare_orders s).long_entry.orderId ∧
      (TwsWrapper.prepare_orders s).short_tgt.parentId =
        (TwsWrapper.prepare_orders s).short_entry.orderId ∧
      (TwsWrapper.prepare_orders s).short_trail.parentId =
        (TwsWrapper.prepare_orders s).short_entry.orderId) := by
  unfold TwsWrapper.prepare_orders TwsWrapper.get_orders
  rw [h]
  simp [pyStr]

/-- Witness for C6 at the ready state (`nextValidOrderId = 5`,
`last_price = 50`): the prepared ids are the strings of `5`–`10` and the
parent links point to the entry ids. -/
theorem order_bracket_structure_witness :
    pyFloatLe news_ready_state.last_price (PFloat.val 0) = false ∧
      ((TwsWrapper.get_orders news_ready_state).length = 6 ∧
        news_prepared_state.long_entry.orderId = PyVal.strV "5" ∧
        news_prepared_state.short_trail.orderId = PyVal.strV "10" ∧
        news_prepared_state.long_trail.parentId = PyVal.strV "5" ∧
        news_prepared_state.short_tgt.parentId = PyVal.strV "8") := by
  have h : pyFloatLe news_ready_state.last_price (PFloat.val 0) = false := by decide
  have key := order_bracket_structure news_ready_state h
  have hdef : news_prepared_state = TwsWrapper.prepare_orders news_ready_state := rfl
  refine ⟨h, key.2.1, ?_, ?_, ?_, ?_⟩
  · rw [hdef, key.2.2.1.1]; rfl
  · rw [hdef, key.2.2.1.2.2.2.2.2]; rfl
  · rw [hdef, key.2.2.2.2.1, key.2.2.1.1]; rfl
  · rw [hdef, key.2.2.2.2.2.1, key.2.2.1.2.2.2.1]; rfl

/-- Claim C2: the trader status follows COLD → HOT → ACTIVE → COLD driven by
order-id identity: `place_orders` sets the status to `HOT`; an `orderStatus`
callback whose `order_id` equals the long or short entry order's id (and none
of the exit ids) sets the status to `ACTIVE`; a callback whose `order_id`
equals a target or trailing-stop order's id sets the status to `COLD`. -/
theorem order_bracket_state_machine (s : TwsWrapper) (oid : PyVal) :
    (Trader.place_orders s).status = TraderStatus.HOT ∧
    ((pyEq oid s.long_entry.orderId = true ∨ pyEq oid s.short_entry.orderId = true) →
      pyEq oid s.long_tgt.orderId = false → pyEq oid s.long_trail.orderId = false →
      pyEq oid s.short_tgt.orderId = false → pyEq oid s.short_trail.orderId = false →
      (TwsWrapper.orderStatus s oid).status = TraderStatus.ACTIVE) ∧
    ((pyEq oid s.long_tgt.orderId = true ∨ pyEq oid s.long_trail.orderId = true ∨
      pyEq oid s.short_tgt.orderId = true ∨ pyEq oid s.short_trail.orderId = true) →
      (TwsWrapper.orderStatus s oid).status = TraderStatus.COLD) := by
  refine ⟨rfl, ?_, ?_⟩
  · rintro (he | he) h1 h2 h3 h4 <;>
      simp [TwsWrapper.orderStatus, he, h1, h2, h3, h4]
  · rintro (h | h | h | h) <;>
      unfold TwsWrapper.orderStatus <;>
      by_cases hc1 : (pyEq oid s.long_entry.orderId ||
        pyEq oid s.short_entry.orderId) = true <;>
      simp [hc1, h] <;> split_ifs <;> simp_all

/-- Witness for C2 at the prepared state: order `"5"` is the long entry
(status becomes `ACTIVE`), order `"6"` is the long target (status becomes
`COLD`), and `place_orders` yields `HOT`. -/
theorem order_bracket_state_machine_witness :
    (Trader.place_orders news_prepared_state).status = TraderStatus.HOT ∧
      (TwsWrapper.orderStatus news_prepared_state (PyVal.strV "5")).status =
        TraderStatus.ACTIVE ∧
      (TwsWrapper.orderStatus news_prepared_state (PyVal.strV "6")).status =
        TraderStatus.COLD :=
  ⟨(order_bracket_state_machine news_prepared_state (PyVal.strV "5")).1,
   (order_bracket_state_machine news_prepared_state (PyVal.strV "5")).2.1
     (Or.inl (by decide)) (by decide) (by decide) (by decide) (by decide),
   (order_bracket_state_machine news_prepared_state (PyVal.strV "6")).2.2
     (Or.inl (by decide))⟩

/-- Claim C5 (failing behaviour): the snapshot tool's `__main__` parses the
verbosity, `--db` and `--csv` flags but never reads `args` again, so for
every argument combination the run writes the CSV to the hard-coded path
`"./data/out.csv"` and always writes the snapshot to DynamoDB — in
particular with `--db` absent and a custom `--csv` path. -/
theorem snapshot_main_ignores_flags (args : SnapArgs) :
    snapshot_main args = ("./data/out.csv", true) ∧
      snapshot_main { verbose := false, quiet := false, db := false,
                      csv := some "custom.csv" } = ("./data/out.csv", true) :=
  ⟨rfl, rfl⟩

/-- Claim C8: `export_dynamo` flags the export outcome with a boolean check
of the HTTP response status code: it reports success exactly when the code
is `200` and reports an error exactly otherwise; the report function is
total, with no retry path and no raised exception. -/
theorem export_status_flagging (c : Nat) :
    (Snapshot.export_dynamo_report c = ExportReport.success ↔ c = 200) ∧
    (Snapshot.export_dynamo_report c = ExportReport.failure ↔ c ≠ 200) := by
  unfold Snapshot.export_dynamo_report
  by_cases h : c = 200 <;> simp [h]

/-- Helper: overwriting an existing key in the dictionary makes lookup of
that key return the new value. -/
theorem dict_get_map_overwrite (k : Int) (v : AcctEntry) :
    ∀ d : List (Int × AcctEntry), d.any (fun kv => kv.1 == k) = true →
      dict_get (d.map (fun kv => if kv.1 == k then (k, v) else kv)) k = some v := by
  intro d
  induction d with
  | nil => intro h; cases h
  | cons kv t ih =>
    intro h
    rw [List.any_cons] at h
    cases hk : (kv.1 == k) with
    | true =>
      unfold dict_get
      rw [List.map_cons, if_pos hk, List.find?_cons_of_pos _ (by simp)]
      rfl
    | false =>
      unfold dict_get
      rw [List.map_cons, if_neg (by simp [hk]),
        List.find?_cons_of_neg _ (by simp [hk])]
      have ht : t.any (fun kv => kv.1 == k) = true := by
        rw [hk] at h
        simpa using h
      exact ih ht

/-- Helper: appending a new key to the dictionary makes lookup of that key
return the appended value when the key was absent. -/
theorem dict_get_append_new (k : Int) (v : AcctEntry) :
    ∀ d : List (Int × AcctEntry), d.any (fun kv => kv.1 == k) = false →
      dict_get (d ++ [(k, v)]) k = some v := by
  intro d
  induction d with
  | nil =>
    intro _
    unfold dict_get
    rw [List.nil_append, List.find?_cons_of_pos _ (by simp)]
    rfl
  | cons kv t ih =>
    intro h
    rw [List.any_cons] at h
    have hk : (kv.1 == k) = false := by
      cases hkk : (kv.1 == k)
      · rfl
      · rw [hkk] at h; simp at h
    unfold dict_get
    rw [List.cons_append, List.find?_cons_of_neg _ (by simp [hk])]
    have ht : t.any (fun kv => kv.1 == k) = false := by
      rw [hk] at h
      simpa using h
    exact ih ht

/-- Helper: Python dict assignment followed by lookup of the same key yields
the assigned value. -/
theorem dict_get_dict_set (d : List (Int × AcctEntry)) (k : Int) (v : AcctEntry) :
    dict_get (dict_set d k v) k = some v := by
  unfold dict_set
  cases h : d.any (fun kv => kv.1 == k)
  · rw [if_neg (by simp)]
    exact dict_get_append_new k v d h
  · rw [if_pos rfl]
    exact dict_get_map_overwrite k v d h

/-- Helper: the row update of the position loop never changes a row's
`conid`. -/
theorem df_row_update_conid (mult : ℚ) (kv : Int × AcctEntry) (r : DfRow) :
    (Snapshot.df_row_update mult kv r).conid = r.conid := by
  unfold Snapshot.df_row_update
  split <;> rfl

/-- Helper: folding the account's updates over a row preserves its `conid`. -/
theorem acct_fold_conid (mult : ℚ) :
    ∀ (account : List (Int × AcctEntry)) (r : DfRow),
      (account.foldl (fun r kv => Snapshot.df_row_update mult kv r) r).conid =
        r.conid := by
  intro account
  induction account with
  | nil => intro r; rfl
  | cons kv t ih =>
    intro r
    rw [List.foldl_cons, ih, df_row_update_conid]

/-- Helper: a row whose `conid` matches none of the account keys is left
unchanged by the account fold. -/
theorem acct_fold_skip (mult : ℚ) :
    ∀ (account : List (Int × AcctEntry)) (r : DfRow),
      (∀ kv ∈ account, kv.1 ≠ r.conid) →
      account.foldl (fun r kv => Snapshot.df_row_update mult kv r) r = r := by
  intro account
  induction account with
  | nil => intro r _; rfl
  | cons kv t ih =>
    intro r h
    rw [List.foldl_cons]
    have hne : (r.conid == kv.1) = false := by
      have hx := h kv (List.mem_cons_self _ _)
      simp only [beq_eq_false_iff_ne, ne_eq]
      exact fun hc => hx hc.symm
    have hupd : Snapshot.df_row_update mult kv r = r := by
      unfold Snapshot.df_row_update
      rw [if_neg (by simp [hne])]
    rw [hupd]
    exact ih r (fun kv2 hm => h kv2 (List.mem_cons_of_mem _ hm))

/-- Helper: if `(k, v)` is a binding of the account, the account keys are
distinct (Python dicts), and a row's `conid` is `k`, then the account fold
writes `v`'s position and its average cost over the multiplier into that
row. -/
theorem acct_fold_apply (mult : ℚ) :
    ∀ (account : List (Int × AcctEntry)) (r : DfRow) (k : Int) (v : AcctEntry),
      (account.map Prod.fst).Nodup → (k, v) ∈ account → r.conid = k →
      (account.foldl (fun r kv => Snapshot.df_row_update mult kv r) r).position =
          v.position ∧
        (account.foldl (fun r kv => Snapshot.df_row_update mult kv r) r).avg_price =
          v.avg_price / mult := by
  intro account
  induction account with
  | nil => intro r k v _ hm _; cases hm
  | cons kv t ih =>
    intro r k v hnd hm hc
    rw [List.map_cons, List.nodup_cons] at hnd
    rw [List.foldl_cons]
    rcases List.mem_cons.mp hm with heq | hmt
    · have hk1 : kv.1 = k := by rw [← heq]
      have hk2 : kv.2 = v := by rw [← heq]
      have hcond : (r.conid == kv.1) = true := by simp [hc, hk1]
      have hupd : Snapshot.df_row_update mult kv r =
          { r with position := kv.2.position,
                   avg_price := kv.2.avg_price / mult } := by
        unfold Snapshot.df_row_update
        rw [if_pos hcond]
      rw [hupd]
      have hskip : t.foldl (fun r kv => Snapshot.df_row_update mult kv r)
          { r with position := kv.2.position,
                   avg_price := kv.2.avg_price / mult } =
          { r with position := kv.2.position,
                   avg_price := kv.2.avg_price / mult } := by
        apply acct_fold_skip
        intro kv2 hm2 hce
        apply hnd.1
        rw [hk1]
        have : kv2.1 = k := by
          rw [hce]
          exact hc
        rw [← this]
        exact List.mem_map.mpr ⟨kv2, hm2, rfl⟩
      rw [hskip, hk2]
      exact ⟨rfl, rfl⟩
    · have hk : kv.1 ≠ k := by
        intro he
        apply hnd.1
        rw [he]
        exact List.mem_map.mpr ⟨(k, v), hmt, rfl⟩
      have hcond : (r.conid == kv.1) = false := by
        simp only [beq_eq_false_iff_ne, ne_eq, hc]
        exact fun hh => hk hh.symm
      have hupd : Snapshot.df_row_update mult kv r = r := by
        unfold Snapshot.df_row_update
        rw [if_neg (by simp [hcond])]
      rw [hupd]
      exact ih r k v hnd.2 hmt hc

/-- Helper: the row-table fold of the position loop is a pointwise map --
each row evolves independently through the account updates. -/
theorem fold_map_comm (mult : ℚ) :
    ∀ (account : List (Int × AcctEntry)) (rows : List DfRow) (g : DfRow → DfRow),
      account.foldl (fun df kv => df.map (Snapshot.df_row_update mult kv))
          (rows.map g) =
        rows.map (fun r =>
          account.foldl (fun r kv => Snapshot.df_row_update mult kv r) (g r)) := by
  intro account
  induction account with
  | nil => intro rows g; simp
  | cons kv t ih =>
    intro rows g
    rw [List.foldl_cons, List.map_map]
    exact ih rows (fun r => Snapshot.df_row_update mult kv (g r))

/-- Helper: `update_position_data` equals the pointwise description: zero the
position columns of each row, then apply every account binding to it. -/
theorem update_position_data_eq_map (account : List (Int × AcctEntry))
    (mult : ℚ) (rows : List DfRow) :
    Snapshot.update_position_data account mult rows =
      rows.map (fun r =>
        account.foldl (fun r kv => Snapshot.df_row_update mult kv r)
          { r with position := 0, avg_price := 0 }) := by
  unfold Snapshot.update_position_data
  exact fold_map_comm mult account rows _

/-- Claim C7: the portfolio snapshot maps conId to position, average cost
and strike — a portfolio callback whose contract symbol equals the
configured symbol stores exactly that triple under the contract's conId —
and the `prepare_df` position loop then writes, for each stored binding
`(k, v)` of the account, `v`'s position into the Position column and `v`'s
average cost divided by the configured multiplier into the Avg Price column
of every result row whose `conid` is `k`. -/
theorem account_snapshot_enrichment
    (s : SnapAccountState) (sym : String) (cid : Int) (pos cost strik mult : ℚ)
    (account : List (Int × AcctEntry)) (k : Int) (v : AcctEntry)
    (rows : List DfRow) (r : DfRow)
    (hsym : sym = s.cont_symbol)
    (hnodup : (account.map Prod.fst).Nodup)
    (hkv : (k, v) ∈ account)
    (hr : r ∈ Snapshot.update_position_data account mult rows)
    (hck : r.conid = k) :
    dict_get (Snapshot.updatePortfolio s sym cid pos cost strik).account cid =
        some { position := pos, avg_price := cost, strike := strik } ∧
      r.position = v.position ∧ r.avg_price = v.avg_price / mult := by
  constructor
  · unfold Snapshot.updatePortfolio
    rw [if_pos (by simp [hsym])]
    exact dict_get_dict_set _ _ _
  · rw [update_position_data_eq_map] at hr
    rcases List.mem_map.mp hr with ⟨r0, _, rfl⟩
    have hbase : ({ r0 with position := 0, avg_price := 0 } : DfRow).conid = k := by
      rw [← acct_fold_conid mult account { r0 with position := 0, avg_price := 0 }]
      exact hck
    exact acct_fold_apply mult account _ k v hnodup hkv hbase

/-- Witness for C7: storing conId `10` for symbol `"CL"` makes the account
lookup return the stored triple, and the enrichment of `rows_demo` with
`acct_demo` at multiplier `1000` gives the conId-`10` row position `2` and
average price `300 / 1000`. -/
theorem account_snapshot_enrichment_witness :
    dict_get (Snapshot.updatePortfolio snap_demo_state "CL" 10 2 300 55).account 10 =
        some { position := 2, avg_price := 300, strike := 55 } ∧
      row_demo.position = acct_entry_demo.position ∧
      row_demo.avg_price = acct_entry_demo.avg_price / 1000 := by
  have hlist : Snapshot.update_position_data acct_demo 1000 rows_demo =
      [row_demo, { conid := 11, position := 0, avg_price := 0 }] := rfl
  refine account_snapshot_enrichment snap_demo_state "CL" 10 2 300 55 1000 acct_demo
    10 acct_entry_demo rows_demo row_demo rfl (by decide) (List.mem_singleton.mpr rfl)
    ?_ rfl
  rw [hlist]
  exact List.mem_cons_self _ _

/-- Witness for C9 at a chain record with both quotes NaN and a concrete
delta substitution. -/
theorem snapshot_missing_guard_witness :
    (Snapshot.record_missing chain_empty_rec = true ↔
      (chain_empty_rec.ask.isnan = true ∧ chain_empty_rec.bid.isnan = true)) ∧
      Snapshot.record_missing { chain_empty_rec with delta := PFloat.val 1 } =
        Snapshot.record_missing chain_empty_rec :=
  snapshot_missing_guard chain_empty_rec (PFloat.val 1)

/-- Witness for C8 at the two status codes `200` and `404`. -/
theorem export_status_flagging_witness :
    Snapshot.export_dynamo_report 200 = ExportReport.success ∧
      Snapshot.export_dynamo_report 404 = ExportReport.failure :=
  ⟨(export_status_flagging 200).1.mpr rfl,
   (export_status_flagging 404).2.mpr (by decide)⟩
